import Mathlib

/-!
Shallow embedding of the trivia API backend (`backend/flaskr/__init__.py`).

The Flask handlers are modelled as pure functions from an application state
(the two database tables) and the request data to either a success body or
an HTTP error code (`Except Nat body` models `abort(code)`).  The storage
layer (Flask-SQLAlchemy) is embedded by its documented semantics:
`order_by(id)` sorts by ascending id, `paginate(page, per_page,
error_out=False)` slices the ordered rows and clamps `page` below at 1, and
`Pagination.pages` is the ceiling of `total / per_page` (0 when `per_page`
is 0).  A bare Python `except:` clause catches every exception, including
the `HTTPException` raised by `abort(404)`, so a `try` block whose handler
calls `abort(422)` turns every internal abort into a 422; `tryExcept422`
embeds exactly that.

The search endpoint, the quiz endpoint and the JSON error handlers are only
TODO stubs in the source; their models are taken from the specification and
are marked `Modelled from the spec:` in their doc comments.
-/

/-- A JSON-ish Python value as carried in request bodies.  `body.get(k, None)`
yields `PyVal.none` when the key is absent or the JSON value is null. -/
inductive PyVal where
  | none
  | int (i : Int)
  | str (s : String)
deriving DecidableEq, Repr

/-- Python truthiness: `None`, `0` and `""` are falsy. -/
def PyVal.truthy : PyVal → Bool
  | PyVal.none => false
  | PyVal.int i => i != 0
  | PyVal.str s => s != ""

/-- A row of the `questions` table; `Question.format()` returns exactly these
five fields, so the formatted dict is embedded as the record itself. -/
structure Question where
  id : Nat
  question : String
  answer : String
  category : Int
  difficulty : Int
deriving DecidableEq, Repr

/-- A row of the `categories` table. -/
structure Category where
  id : Nat
  type : String
deriving DecidableEq, Repr

/-- The database state seen by one request: the two tables. -/
structure AppState where
  questions : List Question
  categories : List Category
deriving DecidableEq, Repr

deriving instance DecidableEq for Except

def QUESTIONS_PER_PAGE : Nat := 10

/-- `Question.query.order_by(Question.id)`: the rows sorted by ascending id. -/
def order_by_id (l : List Question) : List Question :=
  List.insertionSort (fun a b => a.id ≤ b.id) l

instance : IsTotal Question (fun a b => a.id ≤ b.id) :=
  ⟨fun a b => Nat.le_total a.id b.id⟩

instance : IsTrans Question (fun a b => a.id ≤ b.id) :=
  ⟨fun _ _ _ => Nat.le_trans⟩

/-- The fields of a Flask-SQLAlchemy `Pagination` object used by the app. -/
structure Pagination where
  items : List Question
  total : Nat
  page : Nat
  pages : Nat
deriving DecidableEq, Repr

/-- `query.paginate(page=page, per_page=per_page, error_out=False)` on the
ordered row list `l`: the page number is clamped below at 1, the items are
the window of `per_page` rows starting at offset `(page - 1) * per_page`,
and `pages` is `ceil(total / per_page)` (0 when `per_page = 0`). -/
def paginate (l : List Question) (page per_page : Nat) : Pagination :=
  let p := max page 1
  { items := (l.drop ((p - 1) * per_page)).take per_page
    total := l.length
    page := p
    pages := if per_page = 0 then 0 else (l.length + per_page - 1) / per_page }

/-- Success body of `GET /questions`. -/
structure QuestionsOk where
  success : Bool
  questions : List Question
  total_questions : Nat
  current_page : Nat
  total_pages : Nat
  categories : List (Nat × String)
  current_category : Option String
deriving DecidableEq, Repr

/-- `GET /questions?page=N` (`get_questions` in the source): paginate all
questions ordered by id; an empty page aborts with 404 (no `try/except`
around this handler, so the 404 reaches the client). -/
def get_questions (s : AppState) (page : Nat) : Except Nat QuestionsOk :=
  let pagination := paginate (order_by_id s.questions) page QUESTIONS_PER_PAGE
  if pagination.items.isEmpty then
    Except.error 404
  else
    Except.ok
      { success := true
        questions := pagination.items
        total_questions := pagination.total
        current_page := pagination.page
        total_pages := pagination.pages
        categories := s.categories.map (fun c => (c.id, c.type))
        current_category := Option.none }

/-- A bare `except:` clause whose body is `abort(422)`: every exception
raised in the `try` block — including the `HTTPException` of an inner
`abort(404)` — is caught and replaced by a 422. -/
def tryExcept422 {α : Type} (e : Except Nat α) : Except Nat α :=
  match e with
  | Except.ok a => Except.ok a
  | Except.error _ => Except.error 422

/-- Success body of `DELETE /questions/{id}`. -/
structure DeleteOk where
  success : Bool
  deleted : Nat
deriving DecidableEq, Repr

/-- The `try` block of `delete_question`: look the id up with
`one_or_none()`, `abort(404)` when absent, otherwise delete the row and
return the success body together with the updated table. -/
def delete_question_try (s : AppState) (question_id : Nat) :
    Except Nat (DeleteOk × AppState) :=
  match s.questions.find? (fun q => q.id == question_id) with
  | Option.none => Except.error 404
  | Option.some _ =>
      Except.ok
        ({ success := true, deleted := question_id },
         { s with questions := s.questions.filter (fun q => q.id != question_id) })

/-- `DELETE /questions/{id}` (`delete_question` in the source): the whole
body sits inside `try: ... except: abort(422)`, so the inner `abort(404)`
for a missing id is converted into a 422. -/
def delete_question (s : AppState) (question_id : Nat) :
    Except Nat DeleteOk × AppState :=
  match tryExcept422 (delete_question_try s question_id) with
  | Except.ok (r, s2) => (Except.ok r, s2)
  | Except.error c => (Except.error c, s)

/-- The JSON body of `POST /questions`; an absent or null field is
`PyVal.none`. -/
structure CreateBody where
  question : PyVal
  answer : PyVal
  category : PyVal
  difficulty : PyVal
deriving DecidableEq, Repr

/-- Success body of `POST /questions`. -/
structure CreateOk where
  success : Bool
  created : Nat
deriving DecidableEq, Repr

/-- The storage-assigned id of a freshly inserted row: one more than the
largest id in the table. -/
def next_id (l : List Question) : Nat :=
  (l.map Question.id).foldr max 0 + 1

/-- `POST /questions` (`create_question` in the source):
`if not all([question, answer, category, difficulty]): abort(422)` rejects
any falsy field before the `try` block that inserts the row; a storage
failure inside the `try` (here: a field of the wrong column type) is caught
by the bare `except:` and becomes a 422.  The returned state is the table
after the request. -/
def create_question (s : AppState) (body : CreateBody) :
    Except Nat CreateOk × AppState :=
  if !(body.question.truthy && body.answer.truthy &&
       body.category.truthy && body.difficulty.truthy) then
    (Except.error 422, s)
  else
    let tryBody : Except Nat (CreateOk × AppState) :=
      match body.question, body.answer, body.category, body.difficulty with
      | PyVal.str qtext, PyVal.str atext, PyVal.int cat, PyVal.int diff =>
          let q : Question :=
            { id := next_id s.questions, question := qtext, answer := atext,
              category := cat, difficulty := diff }
          Except.ok ({ success := true, created := q.id },
                     { s with questions := s.questions ++ [q] })
      | _, _, _, _ => Except.error 500
    match tryExcept422 tryBody with
    | Except.ok (r, s2) => (Except.ok r, s2)
    | Except.error c => (Except.error c, s)

/-- Success body of `POST /questions/category`. -/
structure CategoryOk where
  success : Bool
  questions : List Question
  total_questions : Nat
  current_category : String
deriving DecidableEq, Repr

/-- The `try` block of `get_questions_by_category`: look the category up
(`abort(404)` when absent), paginate the category's questions ordered by
id (`abort(404)` on an empty page); a non-integer `category_id` makes the
storage query fail, which the handler treats like any other exception. -/
def get_questions_by_category_try (s : AppState) (category_id : PyVal)
    (page : Nat) : Except Nat CategoryOk :=
  match category_id with
  | PyVal.int cid =>
      match s.categories.find? (fun c => (c.id : Int) == cid) with
      | Option.none => Except.error 404
      | Option.some cat =>
          let selection := order_by_id (s.questions.filter (fun q => q.category == cid))
          let total_questions := selection.length
          let pagination := paginate selection page QUESTIONS_PER_PAGE
          if pagination.items.isEmpty then
            Except.error 404
          else
            Except.ok
              { success := true
                questions := pagination.items
                total_questions := total_questions
                current_category := cat.type }
  | _ => Except.error 500

/-- `POST /questions/category` (`get_questions_by_category` in the source):
`abort(400)` when `category_id` is falsy, then the whole lookup sits inside
`try: ... except: abort(422)`, so both inner `abort(404)` calls are
converted into 422. -/
def get_questions_by_category (s : AppState) (category_id : PyVal)
    (page : Nat) : Except Nat CategoryOk :=
  if !category_id.truthy then
    Except.error 400
  else
    tryExcept422 (get_questions_by_category_try s category_id page)

/-- Success body of `POST /questions/search`. -/
structure SearchOk where
  success : Bool
  questions : List Question
  total_questions : Nat
  current_category : Option String
deriving DecidableEq, Repr

/-- Boolean test for `needle` occurring as a contiguous sublist of `hay`. -/
def list_contains_sub : List Char → List Char → Bool
  | needle, [] => needle.isEmpty
  | needle, c :: rest => needle.isPrefixOf (c :: rest) || list_contains_sub needle rest

/-- Lowercasing a string, character by character. -/
def lower_chars (s : String) : List Char :=
  s.toList.map Char.toLower

/-- Case-insensitive substring test on strings: both sides are lowercased
and compared as character lists. -/
def is_ci_substring (term text : String) : Bool :=
  list_contains_sub (lower_chars term) (lower_chars text)

/-- Modelled from the spec: the `POST /questions/search` endpoint is only a
TODO stub in the source (its tests exist).  Per the spec it returns, in id
order, exactly the questions whose text contains the search term as a
case-insensitive substring, in a body
`{success, questions, total_questions, current_category: null}`, and
answers 404 when the term is empty or nothing matches. -/
def search_questions (s : AppState) (searchTerm : String) :
    Except Nat SearchOk :=
  if searchTerm = "" then
    Except.error 404
  else
    let found :=
      (order_by_id s.questions).filter (fun q => is_ci_substring searchTerm q.question)
    if found.isEmpty then
      Except.error 404
    else
      Except.ok
        { success := true
          questions := found
          total_questions := found.length
          current_category := Option.none }

/-- Success body of `POST /quizzes`; `question` is null when the pool is
exhausted. -/
structure QuizOk where
  success : Bool
  question : Option Question
deriving DecidableEq, Repr

/-- The category-filtered pool of the quiz: all questions of the requested
category, or every question when no category is requested. -/
def category_pool (s : AppState) (quiz_category : Option Nat) : List Question :=
  match quiz_category with
  | Option.none => s.questions
  | Option.some cid => s.questions.filter (fun q => q.category == (cid : Int))

/-- The eligible pool of the quiz: the category pool minus the previously
served ids. -/
def eligible_pool (s : AppState) (quiz_category : Option Nat)
    (previous_questions : List Nat) : List Question :=
  (category_pool s quiz_category).filter
    (fun q => !(previous_questions.contains q.id))

/-- One uniformly random element of the pool, the random draw being supplied
as an external index `r`; an empty pool yields the Exhausted body (success
with a null question). -/
def pick (pool : List Question) (r : Nat) : QuizOk :=
  if pool.isEmpty then
    { success := true, question := Option.none }
  else
    { success := true, question := pool.get? (r % pool.length) }

/-- Modelled from the spec: the `POST /quizzes` endpoint is only a TODO stub
in the source (its tests exist).  Per spec §4.4: when a category is supplied
its existence is validated first (`abort(400)` when it does not exist), the
eligible pool is the category pool minus `previous_questions`, an empty
pool returns the Exhausted body as a success, and otherwise one pool element
is chosen at random. -/
def next_question (s : AppState) (quiz_category : Option Nat)
    (previous_questions : List Nat) (r : Nat) : Except Nat QuizOk :=
  match quiz_category with
  | Option.some cid =>
      if (s.categories.find? (fun c => c.id == cid)).isNone then
        Except.error 400
      else
        Except.ok (pick (eligible_pool s (Option.some cid) previous_questions) r)
  | Option.none =>
      Except.ok (pick (eligible_pool s Option.none previous_questions) r)

/-- JSON body of every error response. -/
structure ErrorBody where
  success : Bool
  message : String
deriving DecidableEq, Repr

/-- Modelled from the spec: the error handlers are only a TODO stub in the
source (their tests exist).  The spec fixes error bodies to
`{success: false, message}` carrying the status code, and the repository
tests fix the message strings. -/
def error_message : Nat → String
  | 400 => "bad request"
  | 404 => "resource not found"
  | 422 => "unprocessable"
  | _ => "error"

/-- Modelled from the spec: the JSON error response (status code and body)
produced by the error handlers for the status `code`. -/
def error_response (code : Nat) : Nat × ErrorBody :=
  (code, { success := false, message := error_message code })

/-- The database state the test suite seeds: one category and one question. -/
def sample_state : AppState :=
  { questions :=
      [{ id := 1, question := "Test Question", answer := "Test Answer",
         category := 1, difficulty := 1 }]
    categories := [{ id := 1, type := "Test Category" }] }

/-- A state with a question but no categories at all. -/
def no_category_state : AppState :=
  { questions :=
      [{ id := 1, question := "Test Question", answer := "Test Answer",
         category := 1, difficulty := 1 }]
    categories := [] }

lemma order_by_id_length (l : List Question) :
    (order_by_id l).length = l.length :=
  (List.perm_insertionSort _ l).length_eq

lemma order_by_id_mem (q : Question) (l : List Question) :
    q ∈ order_by_id l ↔ q ∈ l :=
  (List.perm_insertionSort _ l).mem_iff

lemma order_by_id_sorted (l : List Question) :
    List.Sorted (fun a b => a.id ≤ b.id) (order_by_id l) :=
  List.sorted_insertionSort _ l

lemma le_ceil_mul (n ps : Nat) (h : 0 < ps) : n ≤ (n + ps - 1) / ps * ps := by
  have hd := Nat.div_add_mod (n + ps - 1) ps
  have hr := Nat.mod_lt (n + ps - 1) h
  rw [Nat.mul_comm]
  set q := (n + ps - 1) / ps with hq
  set r := (n + ps - 1) % ps with hr2
  set m := ps * q with hm
  omega

lemma ceil_mul_lt (n ps : Nat) (h : 0 < ps) : (n + ps - 1) / ps * ps < n + ps := by
  have hd := Nat.div_add_mod (n + ps - 1) ps
  have hr := Nat.mod_lt (n + ps - 1) h
  rw [Nat.mul_comm]
  set q := (n + ps - 1) / ps with hq
  set r := (n + ps - 1) % ps with hr2
  set m := ps * q with hm
  omega

lemma get_questions_error_code (s : AppState) (page c : Nat)
    (h : get_questions s page = Except.error c) : c = 404 := by
  cases hI : (paginate (order_by_id s.questions) page QUESTIONS_PER_PAGE).items.isEmpty with
  | true =>
      simp [get_questions, hI] at h
      omega
  | false =>
      simp [get_questions, hI] at h

lemma delete_error_code (s : AppState) (qid c : Nat)
    (h : (delete_question s qid).1 = Except.error c) : c = 422 := by
  unfold delete_question tryExcept422 at h
  cases hF : delete_question_try s qid with
  | ok p =>
      obtain ⟨r, s2⟩ := p
      rw [hF] at h
      simp at h
  | error e =>
      rw [hF] at h
      simpa using h.symm

lemma create_error_code (s : AppState) (body : CreateBody) (c : Nat)
    (h : (create_question s body).1 = Except.error c) : c = 422 := by
  unfold create_question tryExcept422 at h
  split at h
  · simpa using h.symm
  · split at h
    · simp at h
    · simpa using h.symm

lemma category_error_code (s : AppState) (cid : PyVal) (page c : Nat)
    (h : get_questions_by_category s cid page = Except.error c) :
    c = 400 ∨ c = 422 := by
  by_cases htr : cid.truthy
  · right
    cases hF : get_questions_by_category_try s cid page with
    | ok v => simp [get_questions_by_category, tryExcept422, htr, hF] at h
    | error e =>
        simp [get_questions_by_category, tryExcept422, htr, hF] at h
        omega
  · left
    simp [get_questions_by_category, htr] at h
    omega

lemma search_error_code (s : AppState) (term : String) (c : Nat)
    (h : search_questions s term = Except.error c) : c = 404 := by
  by_cases ht : term = ""
  · simp [search_questions, ht] at h
    omega
  · cases hI : (List.filter (fun q => is_ci_substring term q.question)
        (order_by_id s.questions)).isEmpty with
    | true =>
        simp [search_questions, ht, hI] at h
        omega
    | false =>
        simp [search_questions, ht, hI] at h

lemma quiz_error_code (s : AppState) (qc : Option Nat) (prev : List Nat) (r c : Nat)
    (h : next_question s qc prev r = Except.error c) : c = 400 := by
  cases qc with
  | none => simp [next_question] at h
  | some cid =>
      cases hf : s.categories.find? (fun c => c.id == cid) with
      | none =>
          simp [next_question, hf] at h
          omega
      | some cat => simp [next_question, hf] at h

/-- Claim C6: for every question-table size (including zero) and every page
strictly beyond the last non-empty page — that is, whose offset is at or
past the end of the table — `GET /questions` answers 404 rather than a 200
response with an empty list. -/
theorem page_beyond_end_404 (s : AppState) (page : Nat)
    (h1 : 1 ≤ page) (h2 : s.questions.length ≤ (page - 1) * QUESTIONS_PER_PAGE) :
    get_questions s page = Except.error 404 := by
  have hmax : max page 1 = page := Nat.max_eq_left h1
  have hdrop : (order_by_id s.questions).drop ((page - 1) * QUESTIONS_PER_PAGE) = [] :=
    List.drop_eq_nil_of_le (by rw [order_by_id_length]; exact h2)
  simp [get_questions, paginate, hmax, hdrop]

/-- Witness for C6: page 2 of the one-question test state answers 404. -/
theorem page_beyond_end_404_witness :
    1 ≤ 2 ∧ sample_state.questions.length ≤ (2 - 1) * QUESTIONS_PER_PAGE ∧
    get_questions sample_state 2 = Except.error 404 :=
  ⟨by decide, by decide, page_beyond_end_404 sample_state 2 (by decide) (by decide)⟩

/-- Claim C7: for every page ≥ 1 whose window meets the question table,
`GET /questions` succeeds and returns the questions ordered by ascending id,
numbering exactly `min(page_size, total_count - (page - 1) * page_size)`,
with a page size of 10. -/
theorem page_in_range_contents (s : AppState) (page : Nat)
    (h1 : 1 ≤ page) (h2 : (page - 1) * QUESTIONS_PER_PAGE < s.questions.length) :
    ∃ b, get_questions s page = Except.ok b ∧
      List.Sorted (fun a b => a.id ≤ b.id) b.questions ∧
      b.questions.length =
        min QUESTIONS_PER_PAGE (s.questions.length - (page - 1) * QUESTIONS_PER_PAGE) ∧
      QUESTIONS_PER_PAGE = 10 := by
  have hmax : max page 1 = page := Nat.max_eq_left h1
  have hlen : (order_by_id s.questions).length = s.questions.length :=
    order_by_id_length _
  have hitems : (paginate (order_by_id s.questions) page QUESTIONS_PER_PAGE).items
      = ((order_by_id s.questions).drop ((page - 1) * QUESTIONS_PER_PAGE)).take
          QUESTIONS_PER_PAGE := by
    simp [paginate, hmax]
  have hitems_len : (paginate (order_by_id s.questions) page QUESTIONS_PER_PAGE).items.length
      = min QUESTIONS_PER_PAGE (s.questions.length - (page - 1) * QUESTIONS_PER_PAGE) := by
    rw [hitems, List.length_take, List.length_drop, hlen]
  have hpos : 0 < (paginate (order_by_id s.questions) page QUESTIONS_PER_PAGE).items.length := by
    rw [hitems_len]
    exact lt_min (by decide) (by omega)
  have hne : ¬ ((paginate (order_by_id s.questions) page QUESTIONS_PER_PAGE).items.isEmpty = true) := by
    rw [List.isEmpty_iff_length_eq_zero]
    omega
  refine ⟨{ success := true
            questions := (paginate (order_by_id s.questions) page QUESTIONS_PER_PAGE).items
            total_questions := (paginate (order_by_id s.questions) page QUESTIONS_PER_PAGE).total
            current_page := (paginate (order_by_id s.questions) page QUESTIONS_PER_PAGE).page
            total_pages := (paginate (order_by_id s.questions) page QUESTIONS_PER_PAGE).pages
            categories := s.categories.map (fun c => (c.id, c.type))
            current_category := Option.none }, ?_, ?_, hitems_len, rfl⟩
  · simp [get_questions, hne]
  · rw [hitems]
    exact List.Pairwise.sublist
      ((List.take_sublist _ _).trans (List.drop_sublist _ _))
      (order_by_id_sorted s.questions)

/-- Witness for C7: page 1 of the one-question test state. -/
theorem page_in_range_contents_witness :
    ∃ b, get_questions sample_state 1 = Except.ok b ∧
      List.Sorted (fun a b => a.id ≤ b.id) b.questions ∧
      b.questions.length =
        min QUESTIONS_PER_PAGE (sample_state.questions.length - (1 - 1) * QUESTIONS_PER_PAGE) ∧
      QUESTIONS_PER_PAGE = 10 :=
  page_in_range_contents sample_state 1 (by decide) (by decide)

/-- Claim C8: the pagination computation uses offset `(page - 1) * page_size`
and limit `page_size`, reports the full row count, and its page count is the
ceiling of `total / page_size` (characterised by
`total ≤ pages * page_size < total + page_size`, hence 0 when the table is
empty), and `GET /questions` reports exactly that page count. -/
theorem pagination_contract (l : List Question) (page ps : Nat)
    (h1 : 1 ≤ page) (h2 : 0 < ps) :
    (paginate l page ps).items = (l.drop ((page - 1) * ps)).take ps ∧
    (paginate l page ps).total = l.length ∧
    (l.length = 0 → (paginate l page ps).pages = 0) ∧
    l.length ≤ (paginate l page ps).pages * ps ∧
    (paginate l page ps).pages * ps < l.length + ps ∧
    (∀ (s : AppState) (b : QuestionsOk), get_questions s page = Except.ok b →
      b.total_pages = (paginate (order_by_id s.questions) page QUESTIONS_PER_PAGE).pages) := by
  have hmax : max page 1 = page := Nat.max_eq_left h1
  have hps : ¬ ps = 0 := by omega
  have hpages : (paginate l page ps).pages = (l.length + ps - 1) / ps := by
    simp [paginate, hps]
  refine ⟨by simp [paginate, hmax], by simp [paginate], ?_, ?_, ?_, ?_⟩
  · intro h0
    rw [hpages, h0]
    exact Nat.div_eq_of_lt (by omega)
  · rw [hpages]
    exact le_ceil_mul l.length ps h2
  · rw [hpages]
    exact ceil_mul_lt l.length ps h2
  · intro s b hb
    cases hI : (paginate (order_by_id s.questions) page QUESTIONS_PER_PAGE).items.isEmpty with
    | true => simp [get_questions, hI] at hb
    | false =>
        simp [get_questions, hI] at hb
        subst hb
        rfl

/-- Witness for C8: page 1, page size 10 on the one-question test state. -/
theorem pagination_contract_witness :
    (paginate sample_state.questions 1 10).items =
      (sample_state.questions.drop ((1 - 1) * 10)).take 10 ∧
    (paginate sample_state.questions 1 10).total = sample_state.questions.length ∧
    (sample_state.questions.length = 0 → (paginate sample_state.questions 1 10).pages = 0) ∧
    sample_state.questions.length ≤ (paginate sample_state.questions 1 10).pages * 10 ∧
    (paginate sample_state.questions 1 10).pages * 10 < sample_state.questions.length + 10 ∧
    (∀ (s : AppState) (b : QuestionsOk), get_questions s 1 = Except.ok b →
      b.total_pages = (paginate (order_by_id s.questions) 1 QUESTIONS_PER_PAGE).pages) :=
  pagination_contract sample_state.questions 1 10 (by decide) (by decide)

/-- Claim C2 (code behavior at the failing input): deleting the id 1000,
which does not exist in the seeded test state, answers 422 — not the 404
the specification and the repository's own test expect — because the
`abort(404)` is raised inside the bare `try/except:` and replaced by
`abort(422)`; the table is left unchanged.  Deleting the existing id 1
answers 200 with `deleted = 1` and a subsequent lookup finds no such row. -/
theorem delete_question_code_bug :
    (delete_question sample_state 1000).1 = Except.error 422 ∧
    (delete_question sample_state 1000).2 = sample_state ∧
    (delete_question sample_state 1).1 = Except.ok { success := true, deleted := 1 } ∧
    (delete_question sample_state 1).2.questions.find? (fun q => q.id == 1) =
      Option.none := by
  decide

/-- Claim C3 (code behavior at the failing inputs): on the seeded test state,
asking for the nonexistent category 99 answers 422 — not the 404 the claim
and the handler's own `abort(404)` intend — because the bare `try/except:`
replaces the inner 404 with 422; an out-of-range page of an existing
category likewise answers 422; a present-but-zero `category_id` answers 400
although the claim reserves 400 for a missing `category_id`; a missing
`category_id` answers 400 and a valid request succeeds. -/
theorem category_endpoint_code_bug :
    get_questions_by_category sample_state (PyVal.int 99) 1 = Except.error 422 ∧
    get_questions_by_category sample_state (PyVal.int 1) 2 = Except.error 422 ∧
    get_questions_by_category sample_state (PyVal.int 0) 1 = Except.error 400 ∧
    get_questions_by_category sample_state PyVal.none 1 = Except.error 400 ∧
    get_questions_by_category sample_state (PyVal.int 1) 1 =
      Except.ok { success := true, questions := sample_state.questions,
                  total_questions := 1, current_category := "Test Category" } := by
  decide

/-- Claim C9: a `POST /questions` body in which any of the four fields is
missing/null (`PyVal.none`) or the empty string is rejected with 422 before
any mutating operation: the question table in the returned state is exactly
the one the request started from. -/
theorem create_rejects_missing_fields (s : AppState) (body : CreateBody)
    (h : body.question = PyVal.none ∨ body.question = PyVal.str "" ∨
         body.answer = PyVal.none ∨ body.answer = PyVal.str "" ∨
         body.category = PyVal.none ∨ body.category = PyVal.str "" ∨
         body.difficulty = PyVal.none ∨ body.difficulty = PyVal.str "") :
    create_question s body = (Except.error 422, s) := by
  have hfalse : (body.question.truthy && body.answer.truthy &&
      body.category.truthy && body.difficulty.truthy) = false := by
    rcases h with h | h | h | h | h | h | h | h <;> simp [h, PyVal.truthy]
  simp [create_question, hfalse]

/-- The 422 creation body of the repository's own test: the answer field is
missing. -/
def missing_answer_body : CreateBody :=
  { question := PyVal.str "This question is missing an answer",
    answer := PyVal.none, category := PyVal.int 1, difficulty := PyVal.int 2 }

/-- Witness for C9: the repository test's body with a missing answer is
rejected with 422 and the state is unchanged. -/
theorem create_rejects_missing_fields_witness :
    (missing_answer_body.question = PyVal.none ∨
     missing_answer_body.question = PyVal.str "" ∨
     missing_answer_body.answer = PyVal.none ∨
     missing_answer_body.answer = PyVal.str "" ∨
     missing_answer_body.category = PyVal.none ∨
     missing_answer_body.category = PyVal.str "" ∨
     missing_answer_body.difficulty = PyVal.none ∨
     missing_answer_body.difficulty = PyVal.str "") ∧
    create_question sample_state missing_answer_body = (Except.error 422, sample_state) :=
  ⟨by decide, create_rejects_missing_fields sample_state missing_answer_body (by decide)⟩

/-- Claim C10: a `POST /questions` body whose category or difficulty is the
integer 0 is rejected with 422 even though the field is present and
non-null, because `not all([...])` treats every falsy value alike; the
table is unchanged. -/
theorem create_rejects_zero_fields (s : AppState) (body : CreateBody)
    (h : body.category = PyVal.int 0 ∨ body.difficulty = PyVal.int 0) :
    create_question s body = (Except.error 422, s) := by
  have hfalse : (body.question.truthy && body.answer.truthy &&
      body.category.truthy && body.difficulty.truthy) = false := by
    rcases h with h | h <;> simp [h, PyVal.truthy]
  simp [create_question, hfalse]

/-- A creation body whose four fields are all present and non-null but whose
category is the integer 0. -/
def zero_category_body : CreateBody :=
  { question := PyVal.str "What is the capital of Argentina?",
    answer := PyVal.str "Buenos Aires",
    category := PyVal.int 0, difficulty := PyVal.int 2 }

/-- Witness for C10: the zero-category body is rejected with 422 and the
state is unchanged. -/
theorem create_rejects_zero_fields_witness :
    (zero_category_body.category = PyVal.int 0 ∨
     zero_category_body.difficulty = PyVal.int 0) ∧
    create_question sample_state zero_category_body = (Except.error 422, sample_state) :=
  ⟨by decide, create_rejects_zero_fields sample_state zero_category_body (by decide)⟩

/-- Claim C1 (amended): for every quiz request whose `quiz_category`, when
given, names an existing category, and whose `previous_questions` contains
the id of every question of the category-filtered pool (all questions when
no category is given), the quiz endpoint answers success with a null
question — exhaustion is not an error. -/
theorem quiz_exhausted_ok (s : AppState) (qc : Option Nat) (prev : List Nat) (r : Nat)
    (hvalid : ∀ cid, qc = Option.some cid →
      (s.categories.find? (fun c => c.id == cid)).isSome = true)
    (hcover : ∀ q ∈ category_pool s qc, q.id ∈ prev) :
    next_question s qc prev r = Except.ok { success := true, question := Option.none } := by
  have hpool : eligible_pool s qc prev = [] := by
    rw [eligible_pool, List.filter_eq_nil_iff]
    intro q hq
    simp [List.contains, List.elem_iff, hcover q hq]
  cases qc with
  | none => simp [next_question, hpool, pick]
  | some cid =>
      have hs := hvalid cid rfl
      cases hf : s.categories.find? (fun c => c.id == cid) with
      | none => rw [hf] at hs; simp at hs
      | some cat => simp [next_question, hf, hpool, pick]

/-- Witness for C1: on the seeded test state, a quiz request for category 1
with `previous_questions = [1]` has served the whole pool and receives a
success with a null question. -/
theorem quiz_exhausted_ok_witness :
    (∀ cid, (Option.some 1 : Option Nat) = Option.some cid →
      (sample_state.categories.find? (fun c => c.id == cid)).isSome = true) ∧
    (∀ q ∈ category_pool sample_state (Option.some 1), q.id ∈ [1]) ∧
    next_question sample_state (Option.some 1) [1] 0 =
      Except.ok { success := true, question := Option.none } := by
  have hvalid : ∀ cid, (Option.some 1 : Option Nat) = Option.some cid →
      (sample_state.categories.find? (fun c => c.id == cid)).isSome = true := by
    intro cid h
    injection h with h1
    subst h1
    decide
  have hcover : ∀ q ∈ category_pool sample_state (Option.some 1), q.id ∈ [1] := by
    decide
  exact ⟨hvalid, hcover, quiz_exhausted_ok sample_state (Option.some 1) [1] 0 hvalid hcover⟩

/-- Counterexample for C1 as stated: with an empty category table, a quiz
request for the (nonexistent) category 1 has a `previous_questions` list
covering the whole category-filtered pool, yet the endpoint answers the
error 400 rather than a success with a null question. -/
theorem quiz_nonexistent_category_counterexample :
    (∀ q ∈ category_pool no_category_state (Option.some 1), q.id ∈ [1]) ∧
    next_question no_category_state (Option.some 1) [1] 0 = Except.error 400 := by
  decide

/-- Claim C4: for every non-empty search term, the search endpoint succeeds
whenever some question's text contains the term as a case-insensitive
substring, and its body carries `success`, a null `current_category`, a
consistent `total_questions`, and exactly the matching questions; a term
matching no question, or an empty term, answers 404. -/
theorem search_questions_contract (s : AppState) (term : String) (h0 : term ≠ "") :
    ((∃ q ∈ s.questions, is_ci_substring term q.question = true) →
      ∃ b, search_questions s term = Except.ok b ∧
        b.success = true ∧ b.current_category = Option.none ∧
        b.total_questions = b.questions.length ∧
        (∀ q, q ∈ b.questions ↔ q ∈ s.questions ∧ is_ci_substring term q.question = true)) ∧
    ((∀ q ∈ s.questions, is_ci_substring term q.question = false) →
      search_questions s term = Except.error 404) ∧
    search_questions s "" = Except.error 404 := by
  refine ⟨?_, ?_, by simp [search_questions]⟩
  · rintro ⟨q0, hq0, hm0⟩
    have hF : q0 ∈ List.filter (fun q => is_ci_substring term q.question)
        (order_by_id s.questions) := by
      rw [List.mem_filter, order_by_id_mem]
      exact ⟨hq0, hm0⟩
    have hne : (List.filter (fun q => is_ci_substring term q.question)
        (order_by_id s.questions)).isEmpty = false := by
      cases hI : (List.filter (fun q => is_ci_substring term q.question)
          (order_by_id s.questions)).isEmpty with
      | false => rfl
      | true =>
          rw [List.isEmpty_iff] at hI
          rw [hI] at hF
          simp at hF
    refine ⟨{ success := true
              questions := List.filter (fun q => is_ci_substring term q.question)
                (order_by_id s.questions)
              total_questions := (List.filter (fun q => is_ci_substring term q.question)
                (order_by_id s.questions)).length
              current_category := Option.none }, ?_, rfl, rfl, rfl, ?_⟩
    · simp [search_questions, h0, hne]
    · intro q
      rw [List.mem_filter, order_by_id_mem]
  · intro ht
    have hf : List.filter (fun q => is_ci_substring term q.question)
        (order_by_id s.questions) = [] := by
      rw [List.filter_eq_nil_iff]
      intro q hq
      simp [ht q ((order_by_id_mem q s.questions).mp hq)]
    simp [search_questions, h0, hf]

/-- Witness for C4: the seeded test state and the term of the repository's
search test, which really has a match. -/
theorem search_questions_contract_witness :
    ("Test" : String) ≠ "" ∧
    (∃ q ∈ sample_state.questions, is_ci_substring "Test" q.question = true) ∧
    (((∃ q ∈ sample_state.questions, is_ci_substring "Test" q.question = true) →
      ∃ b, search_questions sample_state "Test" = Except.ok b ∧
        b.success = true ∧ b.current_category = Option.none ∧
        b.total_questions = b.questions.length ∧
        (∀ q, q ∈ b.questions ↔
          q ∈ sample_state.questions ∧ is_ci_substring "Test" q.question = true)) ∧
    ((∀ q ∈ sample_state.questions, is_ci_substring "Test" q.question = false) →
      search_questions sample_state "Test" = Except.error 404) ∧
    search_questions sample_state "" = Except.error 404) :=
  ⟨by decide, by decide, search_questions_contract sample_state "Test" (by decide)⟩

/-- Claim C5: every error any endpoint produces is one of the status codes
400, 404 or 422, and the error handlers answer it with the body
`{success: false, message}` carrying that status code and a non-empty
message. -/
theorem error_responses_shape (s : AppState) (page qid r : Nat) (cid : PyVal)
    (body : CreateBody) (term : String) (qc : Option Nat) (prev : List Nat) (c : Nat)
    (h : get_questions s page = Except.error c ∨
         (delete_question s qid).1 = Except.error c ∨
         (create_question s body).1 = Except.error c ∨
         get_questions_by_category s cid page = Except.error c ∨
         search_questions s term = Except.error c ∨
         next_question s qc prev r = Except.error c) :
    (c = 400 ∨ c = 404 ∨ c = 422) ∧
    error_response c = (c, { success := false, message := error_message c }) ∧
    error_message c ≠ "" := by
  have hc : c = 400 ∨ c = 404 ∨ c = 422 := by
    rcases h with h | h | h | h | h | h
    · exact Or.inr (Or.inl (get_questions_error_code s page c h))
    · exact Or.inr (Or.inr (delete_error_code s qid c h))
    · exact Or.inr (Or.inr (create_error_code s body c h))
    · rcases category_error_code s cid page c h with h4 | h4
      · exact Or.inl h4
      · exact Or.inr (Or.inr h4)
    · exact Or.inr (Or.inl (search_error_code s term c h))
    · exact Or.inl (quiz_error_code s qc prev r c h)
  refine ⟨hc, rfl, ?_⟩
  rcases hc with rfl | rfl | rfl <;> decide

/-- Witness for C5: the 404 of an out-of-range `GET /questions` page carries
the documented JSON error body. -/
theorem error_responses_shape_witness :
    ((404 : Nat) = 400 ∨ (404 : Nat) = 404 ∨ (404 : Nat) = 422) ∧
    error_response 404 = (404, { success := false, message := error_message 404 }) ∧
    error_message 404 ≠ "" :=
  error_responses_shape sample_state 2 0 0 PyVal.none missing_answer_body ""
    Option.none [] 404 (Or.inl (by decide))
